import Mathlib

/-!
Shallow embedding of `src/bin/src/ctl/request_builder.rs`: the request-translation
layer of the sozu control client.  Each command function of `CommandManager` is
modelled as a pure function; the transport collaborator `order_request` is the
boundary of the layer and is modelled as returning the `Request` it would
deliver.  The local file system is passed explicitly as a map from paths to
optional byte contents.  External library functions (hex codec, fingerprint
hash, file loading, socket-address parsing, listener builder) are not under
`src/` and are modelled from the spec, each marked `Modelled from the spec:`.
-/

/-- Modelled from the spec: the local file system consumed by certificate
loading, a map from a path to the raw bytes of the file at that path, `none`
when the file cannot be read. Bytes are `Nat` values below 256. -/
def Filesystem : Type := String → Option (List Nat)

/-- Embeds `anyhow::Context::with_context`: wraps an error with a
human-readable context string, leaves a success untouched. -/
def withContext {α : Type} (msg : String) : Except String α → Except String α
  | Except.error e => Except.error (msg ++ ": " ++ e)
  | Except.ok a => Except.ok a

/-- Boolean test that an `Except` value is an error. -/
def isErr {ε α : Type} : Except ε α → Bool
  | Except.error _ => true
  | Except.ok _ => false

/-- Modelled from the spec: TLS protocol versions accepted by a listener
(`sozu_command_lib::certificate::TlsVersion`, not under src). -/
inductive TlsVersion
  | SSLv2 | SSLv3 | TLSv1_0 | TLSv1_1 | TLSv1_2 | TLSv1_3
deriving DecidableEq, Repr

/-- Embeds `sozu_command_lib::certificate::Fingerprint`, a tuple struct
holding the raw fingerprint bytes; two fingerprints are equal iff their byte
sequences are equal. -/
structure Fingerprint where
  bytes : List Nat
deriving DecidableEq, Repr

/-- Modelled from the spec: the numeric value of one hexadecimal digit
character, `none` for a non-hex character (part of the external hex codec). -/
def hexDigitValue (c : Char) : Option Nat :=
  let n := c.toNat
  if 48 ≤ n ∧ n ≤ 57 then some (n - 48)
  else if 97 ≤ n ∧ n ≤ 102 then some (n - 87)
  else if 65 ≤ n ∧ n ≤ 70 then some (n - 55)
  else none

/-- Modelled from the spec: hex decoding of a character list, two digits per
byte; fails on an odd-length list or any non-hex character. -/
def hexDecodeList : List Char → Option (List Nat)
  | [] => some []
  | [_] => none
  | c1 :: c2 :: rest => do
      let hi ← hexDigitValue c1
      let lo ← hexDigitValue c2
      let tail ← hexDecodeList rest
      pure ((16 * hi + lo) :: tail)

/-- Modelled from the spec: `hex::decode` (external hex crate) — parses a
hexadecimal string into raw bytes; any odd-length or non-hex-digit string is
rejected. -/
def hex_decode (s : String) : Except String (List Nat) :=
  match hexDecodeList s.data with
  | some bytes => Except.ok bytes
  | none => Except.error "invalid hexadecimal data"

/-- Modelled from the spec: the lowercase hex character of a digit value below
16 (used to state the hex round-trip property). -/
def hexDigitChar (n : Nat) : Char :=
  if n < 10 then Char.ofNat (48 + n) else Char.ofNat (87 + n)

/-- Modelled from the spec: lowercase hex re-encoding of a byte list, the
inverse direction of `hexDecodeList`. -/
def hexEncodeList : List Nat → List Char
  | [] => []
  | b :: rest => hexDigitChar (b / 16) :: hexDigitChar (b % 16) :: hexEncodeList rest

/-- Modelled from the spec: the deterministic content hash underlying
`sozu_command_lib::certificate::calculate_fingerprint` — same input bytes
always yield the same output; the concrete digest is a simple fold since only
determinism and content-dependence are specified. -/
def content_digest (bytes : List Nat) : List Nat :=
  [bytes.foldl (fun acc b => (acc * 31 + b) % 256) 17, bytes.length % 256]

/-- Modelled from the spec: `calculate_fingerprint` computes a content
fingerprint from raw bytes; in the model the hash itself always succeeds (the
source treats it as fallible only to propagate library errors). -/
def calculate_fingerprint (bytes : List Nat) : Except String (List Nat) :=
  Except.ok (content_digest bytes)

/-- Modelled from the spec: `Config::load_file_bytes` reads a local file as
raw bytes; failure to read yields an error (context naming the path is added
by the callers, as in the source). -/
def Config.load_file_bytes (fs : Filesystem) (path : String) : Except String (List Nat) :=
  match fs path with
  | some contents => Except.ok contents
  | none => Except.error "unable to read the file"

/-- Modelled from the spec: `Config::load_file` reads a local file; contents
are modelled as raw bytes like `load_file_bytes`. -/
def Config.load_file (fs : Filesystem) (path : String) : Except String (List Nat) :=
  match fs path with
  | some contents => Except.ok contents
  | none => Except.error "unable to read the file"

/-- Modelled from the spec: `split_certificate_chain` splits the chain file
contents into an ordered list of individual certificates — a
concatenation-splitting operation preserving source order, modelled as
splitting on a separator byte (10, line feed). -/
def split_certificate_chain (bytes : List Nat) : List (List Nat) :=
  (bytes.splitOn 10).filter (fun part => part ≠ [])

/-- Embeds `ProxyProtocolConfig` (send, expect, or relay the proxy-protocol
header). -/
inductive ProxyProtocolConfig
  | ExpectHeader | SendHeader | RelayHeader
deriving DecidableEq, Repr

/-- Modelled from the spec: the optional load-balancing policy attached to a
cluster (type not under src; only its identity matters to this layer). -/
inductive LoadBalancingAlgorithms
  | RoundRobin | Random | LeastLoaded | PowerOfTwo
deriving DecidableEq, Repr

/-- Modelled from the spec: the optional load metric of a cluster (always set
to `none` by this layer). -/
inductive LoadMetric
  | Connections | Requests | ConnectionTime
deriving DecidableEq, Repr

/-- Modelled from the spec: per-backend load-balancing weight parameters. -/
structure LoadBalancingParams where
  weight : Nat
deriving DecidableEq, Repr

/-- The default `LoadBalancingParams` (Rust `LoadBalancingParams::default()`). -/
def LoadBalancingParams.default : LoadBalancingParams := { weight := 0 }

/-- Embeds `CertificateAndKey`: leaf certificate bytes, ordered chain of
intermediate certificates, private key bytes, accepted TLS versions. -/
structure CertificateAndKey where
  certificate : List Nat
  certificate_chain : List (List Nat)
  key : List Nat
  versions : List TlsVersion
deriving DecidableEq, Repr

/-- Embeds `ListenerType`: the protocol kind of a listening socket. -/
inductive ListenerType
  | HTTP | HTTPS | TCP
deriving DecidableEq, Repr

/-- Modelled from the spec: a parsed socket address (textual addresses are
parsed at request-build time). -/
structure SockAddr where
  ip : List Nat
  port : Nat
deriving DecidableEq, Repr

/-- Splits a character list on a separator character, keeping empty parts
(the character-level analogue of `str::split`). -/
def splitOnChar (sep : Char) : List Char → List (List Char)
  | [] => [[]]
  | c :: rest =>
      let parts := splitOnChar sep rest
      if c = sep then [] :: parts
      else
        match parts with
        | [] => [[c]]
        | p :: ps => (c :: p) :: ps

/-- Parses a non-empty all-decimal character list into a natural number. -/
def parseDecimal (l : List Char) : Option Nat :=
  match l with
  | [] => none
  | _ => l.foldlM
      (fun acc c =>
        if 48 ≤ c.toNat ∧ c.toNat ≤ 57 then some (acc * 10 + (c.toNat - 48)) else none)
      0

/-- Modelled from the spec: parsing a textual socket address
(`str::parse::<SocketAddr>`, external) — IPv4 dotted quad, a colon, and a
port; a malformed address yields `none`. -/
def parseSocketAddr (s : String) : Option SockAddr :=
  match splitOnChar ':' s.data with
  | [hostPart, portPart] =>
      match parseDecimal portPart, (splitOnChar '.' hostPart).mapM parseDecimal with
      | some port, some [a, b, c, d] =>
          if port < 65536 ∧ a < 256 ∧ b < 256 ∧ c < 256 ∧ d < 256 then
            some { ip := [a, b, c, d], port := port }
          else none
      | _, _ => none
  | _ => none

/-- Embeds `PathRule` (proto): a path-matching rule for an HTTP(S) frontend. -/
inductive PathRule
  | Prefix (s : String)
  | Regex (s : String)
  | Equals (s : String)
deriving DecidableEq, Repr

/-- Modelled from the spec: `PathRule::from_cli_options` builds the path rule
from whichever of the prefix, regex and equals options the caller supplied;
when the caller supplies none of the three the rule matches any path (the
empty prefix). -/
def PathRule.from_cli_options : Option String → Option String → Option String → PathRule
  | some p, _, _ => PathRule.Prefix p
  | none, some r, _ => PathRule.Regex r
  | none, none, some e => PathRule.Equals e
  | none, none, none => PathRule.Prefix ""

/-- Embeds `RulePosition` (proto): the routing position of a frontend rule. -/
inductive RulePosition
  | Pre | Post | Tree
deriving DecidableEq, Repr

/-- Embeds `RequestHttpFrontend` (proto); the tag mapping (a `BTreeMap`) is
modelled as an association list. -/
structure RequestHttpFrontend where
  cluster_id : Option String
  address : String
  hostname : String
  path : PathRule
  method : Option String
  position : RulePosition
  tags : List (String × String)
deriving DecidableEq, Repr

/-- Embeds `RequestTcpFrontend`. -/
structure RequestTcpFrontend where
  cluster_id : String
  address : String
  tags : Option (List (String × String))
deriving DecidableEq, Repr

/-- Embeds `Cluster`: a backend pool policy descriptor. -/
structure Cluster where
  cluster_id : String
  sticky_session : Bool
  https_redirect : Bool
  proxy_protocol : Option ProxyProtocolConfig
  load_balancing : Option LoadBalancingAlgorithms
  load_metric : Option LoadMetric
  answer_503 : Option String
deriving DecidableEq, Repr

/-- Embeds `AddBackend`. -/
structure AddBackend where
  cluster_id : String
  address : String
  backend_id : String
  load_balancing_parameters : Option LoadBalancingParams
  sticky_id : Option String
  backup : Option Bool
deriving DecidableEq, Repr

/-- Embeds `RemoveBackend`. -/
structure RemoveBackend where
  cluster_id : String
  address : String
  backend_id : String
deriving DecidableEq, Repr

/-- Embeds `RemoveListener`. -/
structure RemoveListener where
  address : SockAddr
  proxy : ListenerType
deriving DecidableEq, Repr

/-- Embeds `ActivateListener`. -/
structure ActivateListener where
  address : SockAddr
  proxy : ListenerType
  from_scm : Bool
deriving DecidableEq, Repr

/-- Embeds `DeactivateListener`. -/
structure DeactivateListener where
  address : SockAddr
  proxy : ListenerType
  to_scm : Bool
deriving DecidableEq, Repr

/-- Embeds `AddCertificate`. -/
structure AddCertificate where
  address : String
  certificate : CertificateAndKey
  names : List String
  expired_at : Option Nat
deriving DecidableEq, Repr

/-- Embeds `ReplaceCertificate`. -/
structure ReplaceCertificate where
  address : String
  new_certificate : CertificateAndKey
  old_fingerprint : Fingerprint
  new_names : List String
  new_expired_at : Option Nat
deriving DecidableEq, Repr

/-- Embeds `RemoveCertificate`. -/
structure RemoveCertificate where
  address : String
  fingerprint : Fingerprint
deriving DecidableEq, Repr

/-- Embeds `FrontendFilters`. -/
structure FrontendFilters where
  http : Bool
  https : Bool
  tcp : Bool
  domain : Option String
deriving DecidableEq, Repr

/-- Modelled from the spec: the finalized configuration of one listening
socket produced by the listener builder — parsed bind address together with
the accumulated optional fields (protocol-specific defaults are applied by the
proxy, not needed by the claims about this layer). -/
structure ListenerConfig where
  address : SockAddr
  kind : ListenerType
  public_address : Option String
  answer_404 : Option String
  answer_503 : Option String
  tls_versions : List TlsVersion
  cipher_list : Option String
  expect_proxy : Bool
  sticky_name : Option String
  front_timeout : Option Nat
  back_timeout : Option Nat
  request_timeout : Option Nat
  connect_timeout : Option Nat
deriving DecidableEq, Repr

/-- Modelled from the spec: `ListenerBuilder` (sozu_command_lib, not under
src) — a mutable accumulator of independently-optional listener fields,
holding the textual bind address until finalization. -/
structure ListenerBuilder where
  address : String
  public_address : Option String := none
  answer_404 : Option String := none
  answer_503 : Option String := none
  tls_versions : List TlsVersion := []
  cipher_list : Option String := none
  expect_proxy : Bool := false
  sticky_name : Option String := none
  front_timeout : Option Nat := none
  back_timeout : Option Nat := none
  request_timeout : Option Nat := none
  connect_timeout : Option Nat := none
deriving Repr

/-- Modelled from the spec: start a builder for an HTTP listener. -/
def ListenerBuilder.new_http (address : String) : ListenerBuilder := { address := address }

/-- Modelled from the spec: start a builder for an HTTPS listener. -/
def ListenerBuilder.new_https (address : String) : ListenerBuilder := { address := address }

/-- Modelled from the spec: start a builder for a TCP listener. -/
def ListenerBuilder.new_tcp (address : String) : ListenerBuilder := { address := address }

/-- Modelled from the spec: builder setter for the optional public address. -/
def ListenerBuilder.with_public_address (b : ListenerBuilder) (v : Option String) : ListenerBuilder :=
  { b with public_address := v }

/-- Modelled from the spec: builder setter for the optional 404 error page. -/
def ListenerBuilder.with_answer_404_path (b : ListenerBuilder) (v : Option String) : ListenerBuilder :=
  { b with answer_404 := v }

/-- Modelled from the spec: builder setter for the optional 503 error page. -/
def ListenerBuilder.with_answer_503_path (b : ListenerBuilder) (v : Option String) : ListenerBuilder :=
  { b with answer_503 := v }

/-- Modelled from the spec: builder setter for the TLS version set. -/
def ListenerBuilder.with_tls_versions (b : ListenerBuilder) (v : List TlsVersion) : ListenerBuilder :=
  { b with tls_versions := v }

/-- Modelled from the spec: builder setter for the optional cipher list. -/
def ListenerBuilder.with_cipher_list (b : ListenerBuilder) (v : Option String) : ListenerBuilder :=
  { b with cipher_list := v }

/-- Modelled from the spec: builder setter for the expect-proxy flag. -/
def ListenerBuilder.with_expect_proxy (b : ListenerBuilder) (v : Bool) : ListenerBuilder :=
  { b with expect_proxy := v }

/-- Modelled from the spec: builder setter for the optional sticky-cookie name. -/
def ListenerBuilder.with_sticky_name (b : ListenerBuilder) (v : Option String) : ListenerBuilder :=
  { b with sticky_name := v }

/-- Modelled from the spec: builder setter for the optional front timeout. -/
def ListenerBuilder.with_front_timeout (b : ListenerBuilder) (v : Option Nat) : ListenerBuilder :=
  { b with front_timeout := v }

/-- Modelled from the spec: builder setter for the optional back timeout. -/
def ListenerBuilder.with_back_timeout (b : ListenerBuilder) (v : Option Nat) : ListenerBuilder :=
  { b with back_timeout := v }

/-- Modelled from the spec: builder setter for the optional request timeout. -/
def ListenerBuilder.with_request_timeout (b : ListenerBuilder) (v : Option Nat) : ListenerBuilder :=
  { b with request_timeout := v }

/-- Modelled from the spec: builder setter for the optional connect timeout. -/
def ListenerBuilder.with_connect_timeout (b : ListenerBuilder) (v : Option Nat) : ListenerBuilder :=
  { b with connect_timeout := v }

/-- Modelled from the spec: shared finalization of a builder — parses the
textual bind address (a malformed address fails the whole command before any
request is constructed) and assembles the listener configuration. -/
def ListenerBuilder.finalize (b : ListenerBuilder) (kind : ListenerType) : Except String ListenerConfig :=
  match parseSocketAddr b.address with
  | none => Except.error "could not parse the socket address"
  | some addr => Except.ok
      { address := addr, kind := kind, public_address := b.public_address,
        answer_404 := b.answer_404, answer_503 := b.answer_503,
        tls_versions := b.tls_versions, cipher_list := b.cipher_list,
        expect_proxy := b.expect_proxy, sticky_name := b.sticky_name,
        front_timeout := b.front_timeout, back_timeout := b.back_timeout,
        request_timeout := b.request_timeout, connect_timeout := b.connect_timeout }

/-- Modelled from the spec: `ListenerBuilder::to_http`, finalize as HTTP. -/
def ListenerBuilder.to_http (b : ListenerBuilder) : Except String ListenerConfig :=
  b.finalize ListenerType.HTTP

/-- Modelled from the spec: `ListenerBuilder::to_tls`, finalize as HTTPS. -/
def ListenerBuilder.to_tls (b : ListenerBuilder) : Except String ListenerConfig :=
  b.finalize ListenerType.HTTPS

/-- Modelled from the spec: `ListenerBuilder::to_tcp`, finalize as TCP. -/
def ListenerBuilder.to_tcp (b : ListenerBuilder) : Except String ListenerConfig :=
  b.finalize ListenerType.TCP

/-- Embeds `Request`: the outgoing control-protocol message, one tagged
variant per operation family. -/
inductive Request
  | SaveState (path : String)
  | LoadState (path : String)
  | DumpState
  | SoftStop
  | HardStop
  | Status
  | ReloadConfiguration (path : Option String)
  | ListFrontends (filters : FrontendFilters)
  | SubscribeEvents
  | AddBackend (backend : AddBackend)
  | RemoveBackend (backend : RemoveBackend)
  | AddCluster (cluster : Cluster)
  | RemoveCluster (cluster_id : String)
  | AddTcpFrontend (frontend : RequestTcpFrontend)
  | RemoveTcpFrontend (frontend : RequestTcpFrontend)
  | AddHttpFrontend (frontend : RequestHttpFrontend)
  | RemoveHttpFrontend (frontend : RequestHttpFrontend)
  | AddHttpsFrontend (frontend : RequestHttpFrontend)
  | RemoveHttpsFrontend (frontend : RequestHttpFrontend)
  | AddHttpListener (listener : ListenerConfig)
  | AddHttpsListener (listener : ListenerConfig)
  | AddTcpListener (listener : ListenerConfig)
  | RemoveListener (remove : RemoveListener)
  | ActivateListener (activate : ActivateListener)
  | DeactivateListener (deactivate : DeactivateListener)
  | ListListeners
  | AddCertificate (add : AddCertificate)
  | ReplaceCertificate (replace : ReplaceCertificate)
  | RemoveCertificate (remove : RemoveCertificate)
deriving DecidableEq, Repr

/-- Embeds `BackendCmd` (crate::cli, fields as destructured in
`backend_command`). -/
inductive BackendCmd
  | Add (id : String) (backend_id : String) (address : String)
        (sticky_id : Option String) (backup : Option Bool)
  | Remove (id : String) (backend_id : String) (address : String)
deriving DecidableEq, Repr

/-- Embeds `ClusterCmd` (crate::cli, fields as destructured in
`cluster_command`). -/
inductive ClusterCmd
  | Add (id : String) (sticky_session : Bool) (https_redirect : Bool)
        (send_proxy : Bool) (expect_proxy : Bool)
        (load_balancing_policy : Option LoadBalancingAlgorithms)
  | Remove (id : String)
deriving DecidableEq, Repr

/-- Embeds `TcpFrontendCmd` (crate::cli). -/
inductive TcpFrontendCmd
  | Add (id : String) (address : String) (tags : Option (List (String × String)))
  | Remove (id : String) (address : String)
deriving DecidableEq, Repr

/-- Embeds `HttpFrontendCmd` (crate::cli, fields as destructured in
`http_frontend_command`). -/
inductive HttpFrontendCmd
  | Add (hostname : String) ( path_prefix : Option String) ( path_regex : Option String)
        ( path_equals : Option String) (address : String) (method : Option String)
        (cluster_id : Option String) (tags : Option (List (String × String)))
  | Remove (hostname : String) ( path_prefix : Option String) ( path_regex : Option String)
        ( path_equals : Option String) (address : String) (method : Option String)
        (cluster_id : Option String)
deriving DecidableEq, Repr

/-- Embeds `HttpListenerCmd` (crate::cli). -/
inductive HttpListenerCmd
  | Add (address : String) (public_address : Option String)
        (answer_404 : Option String) (answer_503 : Option String)
        (expect_proxy : Bool) (sticky_name : Option String)
        (front_timeout : Option Nat) (back_timeout : Option Nat)
        (request_timeout : Option Nat) (connect_timeout : Option Nat)
  | Remove (address : String)
  | Activate (address : String)
  | Deactivate (address : String)
deriving DecidableEq, Repr

/-- Embeds `HttpsListenerCmd` (crate::cli). -/
inductive HttpsListenerCmd
  | Add (address : String) (public_address : Option String)
        (answer_404 : Option String) (answer_503 : Option String)
        (tls_versions : List TlsVersion) (cipher_list : Option String)
        (expect_proxy : Bool) (sticky_name : Option String)
        (front_timeout : Option Nat) (back_timeout : Option Nat)
        (request_timeout : Option Nat) (connect_timeout : Option Nat)
  | Remove (address : String)
  | Activate (address : String)
  | Deactivate (address : String)
deriving DecidableEq, Repr

/-- Embeds `TcpListenerCmd` (crate::cli). -/
inductive TcpListenerCmd
  | Add (address : String) (public_address : Option String) (expect_proxy : Bool)
  | Remove (address : String)
  | Activate (address : String)
  | Deactivate (address : String)
deriving DecidableEq, Repr

/-- The transport collaborator `CommandManager::order_request`: serializes and
delivers the request. Modelled as the boundary of the layer, returning the
request it would deliver. -/
def order_request (request : Request) : Except String Request :=
  Except.ok request

/-- The transport collaborator `order_request_to_all_workers`; the JSON output
flag only affects response display, outside this layer. -/
def order_request_to_all_workers (request : Request) (_json : Bool) : Except String Request :=
  Except.ok request

/-- Embeds `save_state`. -/
def save_state (path : String) : Except String Request :=
  order_request (Request.SaveState path)

/-- Embeds `load_state`. -/
def load_state (path : String) : Except String Request :=
  order_request (Request.LoadState path)

/-- Embeds `dump_state`. -/
def dump_state (json : Bool) : Except String Request :=
  order_request_to_all_workers Request.DumpState json

/-- Embeds `soft_stop`. -/
def soft_stop : Except String Request :=
  order_request_to_all_workers Request.SoftStop false

/-- Embeds `hard_stop`. -/
def hard_stop : Except String Request :=
  order_request_to_all_workers Request.HardStop false

/-- Embeds `status`. -/
def status (json : Bool) : Except String Request :=
  order_request_to_all_workers Request.Status json

/-- Embeds `reload_configuration`. -/
def reload_configuration (path : Option String) (json : Bool) : Except String Request :=
  order_request_to_all_workers (Request.ReloadConfiguration path) json

/-- Embeds `list_frontends`. -/
def list_frontends (http : Bool) (https : Bool) (tcp : Bool) (domain : Option String) :
    Except String Request :=
  order_request (Request.ListFrontends { http := http, https := https, tcp := tcp, domain := domain })

/-- Embeds `events`. -/
def events : Except String Request :=
  order_request Request.SubscribeEvents

/-- Embeds `list_listeners`. -/
def list_listeners : Except String Request :=
  order_request Request.ListListeners

/-- Embeds `backend_command`. -/
def backend_command : BackendCmd → Except String Request
  | BackendCmd.Add id backend_id address sticky_id backup =>
      order_request (Request.AddBackend
        { cluster_id := id, address := address, backend_id := backend_id,
          load_balancing_parameters := some LoadBalancingParams.default,
          sticky_id := sticky_id, backup := backup })
  | BackendCmd.Remove id backend_id address =>
      order_request (Request.RemoveBackend
        { cluster_id := id, address := address, backend_id := backend_id })

/-- Embeds `cluster_command`, including the inline derivation of the
proxy-protocol mode from the two boolean flags. -/
def cluster_command : ClusterCmd → Except String Request
  | ClusterCmd.Add id sticky_session https_redirect send_proxy expect_proxy
      load_balancing_policy =>
      let proxy_protocol : Option ProxyProtocolConfig :=
        match send_proxy, expect_proxy with
        | true, true => some ProxyProtocolConfig.RelayHeader
        | true, false => some ProxyProtocolConfig.SendHeader
        | false, true => some ProxyProtocolConfig.ExpectHeader
        | _, _ => none
      order_request (Request.AddCluster
        { cluster_id := id, sticky_session := sticky_session,
          https_redirect := https_redirect, proxy_protocol := proxy_protocol,
          load_balancing := load_balancing_policy, load_metric := none,
          answer_503 := none })
  | ClusterCmd.Remove id =>
      order_request (Request.RemoveCluster id)

/-- Embeds `tcp_frontend_command`. -/
def tcp_frontend_command : TcpFrontendCmd → Except String Request
  | TcpFrontendCmd.Add id address tags =>
      order_request (Request.AddTcpFrontend
        { cluster_id := id, address := address, tags := tags })
  | TcpFrontendCmd.Remove id address =>
      order_request (Request.RemoveTcpFrontend
        { cluster_id := id, address := address, tags := none })

/-- Embeds `http_frontend_command`. -/
def http_frontend_command : HttpFrontendCmd → Except String Request
  | HttpFrontendCmd.Add hostname path_prefix path_regex path_equals address method
      route tags =>
      order_request (Request.AddHttpFrontend
        { cluster_id := route, address := address, hostname := hostname,
          path := PathRule.from_cli_options path_prefix path_regex path_equals,
          method := method, position := RulePosition.Tree,
          tags := match tags with
            | some tags => tags
            | none => [] })
  | HttpFrontendCmd.Remove hostname path_prefix path_regex path_equals address method
      route =>
      order_request (Request.RemoveHttpFrontend
        { cluster_id := route, address := address, hostname := hostname,
          path := PathRule.from_cli_options path_prefix path_regex path_equals,
          method := method, position := RulePosition.Tree,
          tags := [] })

/-- Embeds `https_frontend_command`. -/
def https_frontend_command : HttpFrontendCmd → Except String Request
  | HttpFrontendCmd.Add hostname path_prefix path_regex path_equals address method
      route tags =>
      order_request (Request.AddHttpsFrontend
        { cluster_id := route, address := address, hostname := hostname,
          path := PathRule.from_cli_options path_prefix path_regex path_equals,
          method := method, position := RulePosition.Tree,
          tags := match tags with
            | some tags => tags
            | none => [] })
  | HttpFrontendCmd.Remove hostname path_prefix path_regex path_equals address method
      route =>
      order_request (Request.RemoveHttpsFrontend
        { cluster_id := route, address := address, hostname := hostname,
          path := PathRule.from_cli_options path_prefix path_regex path_equals,
          method := method, position := RulePosition.Tree,
          tags := [] })

/-- Embeds `remove_listener`: parses the textual address (failing the whole
command on a malformed address) and wraps it into a `RemoveListener` request. -/
def remove_listener (address : String) (proxy : ListenerType) : Except String Request := do
  let addr ← withContext "wrong socket address"
    (match parseSocketAddr address with
     | some a => Except.ok a
     | none => Except.error "invalid socket address")
  order_request (Request.RemoveListener { address := addr, proxy := proxy })

/-- Embeds `activate_listener`. -/
def activate_listener (address : String) (proxy : ListenerType) : Except String Request := do
  let addr ← withContext "wrong socket address"
    (match parseSocketAddr address with
     | some a => Except.ok a
     | none => Except.error "invalid socket address")
  order_request (Request.ActivateListener { address := addr, proxy := proxy, from_scm := false })

/-- Embeds `deactivate_listener`. -/
def deactivate_listener (address : String) (proxy : ListenerType) : Except String Request := do
  let addr ← withContext "wrong socket address"
    (match parseSocketAddr address with
     | some a => Except.ok a
     | none => Except.error "invalid socket address")
  order_request (Request.DeactivateListener { address := addr, proxy := proxy, to_scm := false })

/-- Embeds `https_listener_command`. -/
def https_listener_command : HttpsListenerCmd → Except String Request
  | HttpsListenerCmd.Add address public_address answer_404 answer_503 tls_versions
      cipher_list expect_proxy sticky_name front_timeout back_timeout
      request_timeout connect_timeout => do
      let https_listener ← withContext "Error creating HTTPS listener"
        (ListenerBuilder.new_https address
          |>.with_public_address public_address
          |>.with_answer_404_path answer_404
          |>.with_answer_503_path answer_503
          |>.with_tls_versions tls_versions
          |>.with_cipher_list cipher_list
          |>.with_expect_proxy expect_proxy
          |>.with_sticky_name sticky_name
          |>.with_front_timeout front_timeout
          |>.with_back_timeout back_timeout
          |>.with_request_timeout request_timeout
          |>.with_connect_timeout connect_timeout
          |>.to_tls)
      order_request (Request.AddHttpsListener https_listener)
  | HttpsListenerCmd.Remove address => remove_listener address ListenerType.HTTPS
  | HttpsListenerCmd.Activate address => activate_listener address ListenerType.HTTPS
  | HttpsListenerCmd.Deactivate address => deactivate_listener address ListenerType.HTTPS

/-- Embeds `http_listener_command`. -/
def http_listener_command : HttpListenerCmd → Except String Request
  | HttpListenerCmd.Add address public_address answer_404 answer_503 expect_proxy
      sticky_name front_timeout back_timeout request_timeout connect_timeout => do
      let http_listener ← withContext "Error creating HTTP listener"
        (ListenerBuilder.new_http address
          |>.with_public_address public_address
          |>.with_answer_404_path answer_404
          |>.with_answer_503_path answer_503
          |>.with_expect_proxy expect_proxy
          |>.with_sticky_name sticky_name
          |>.with_front_timeout front_timeout
          |>.with_request_timeout request_timeout
          |>.with_back_timeout back_timeout
          |>.with_connect_timeout connect_timeout
          |>.to_http)
      order_request (Request.AddHttpListener http_listener)
  | HttpListenerCmd.Remove address => remove_listener address ListenerType.HTTP
  | HttpListenerCmd.Activate address => activate_listener address ListenerType.HTTP
  | HttpListenerCmd.Deactivate address => deactivate_listener address ListenerType.HTTP

/-- Embeds `tcp_listener_command`. -/
def tcp_listener_command : TcpListenerCmd → Except String Request
  | TcpListenerCmd.Add address public_address expect_proxy => do
      let listener ← withContext "Could not create TCP listener"
        (ListenerBuilder.new_tcp address
          |>.with_public_address public_address
          |>.with_expect_proxy expect_proxy
          |>.to_tcp)
      order_request (Request.AddTcpListener listener)
  | TcpListenerCmd.Remove address => remove_listener address ListenerType.TCP
  | TcpListenerCmd.Activate address => activate_listener address ListenerType.TCP
  | TcpListenerCmd.Deactivate address => deactivate_listener address ListenerType.TCP

/-- Embeds `get_fingerprint_from_certificate_path`: loads the file bytes and
hashes them into a fingerprint, with contexts naming the path as in the
source. -/
def get_fingerprint_from_certificate_path (fs : Filesystem) (certificate_path : String) :
    Except String Fingerprint := do
  let bytes ← withContext ("could not load certificate file on path " ++ certificate_path)
    (Config.load_file_bytes fs certificate_path)
  let parsed_bytes ← withContext
    ("could not calculate fingerprint for the certificate at " ++ certificate_path)
    (calculate_fingerprint bytes)
  Except.ok (Fingerprint.mk parsed_bytes)

/-- Embeds `decode_fingerprint`: hex-decodes the operator-supplied string into
a fingerprint. -/
def decode_fingerprint (fingerprint : String) : Except String Fingerprint := do
  let bytes ← withContext "Failed at decoding the string (expected hexadecimal data)"
    (hex_decode fingerprint)
  Except.ok (Fingerprint.mk bytes)

/-- Embeds `load_full_certificate`: reads the certificate, chain and key
files, splitting the chain, each read wrapped with a context naming its
path. -/
def load_full_certificate (fs : Filesystem) (certificate_path : String)
    (certificate_chain_path : String) (key_path : String) (versions : List TlsVersion) :
    Except String CertificateAndKey := do
  let certificate ← withContext
    ("Could not load certificate file on path " ++ certificate_path)
    (Config.load_file fs certificate_path)
  let certificate_chain ← withContext
    ("could not load certificate chain on path: " ++ certificate_chain_path)
    ((Config.load_file fs certificate_chain_path).map split_certificate_chain)
  let key ← withContext ("Could not load key file on path " ++ key_path)
    (Config.load_file fs key_path)
  Except.ok { certificate := certificate, certificate_chain := certificate_chain,
              key := key, versions := versions }

/-- Embeds `add_certificate`. -/
def add_certificate (fs : Filesystem) (address : String) (certificate_path : String)
    (certificate_chain_path : String) (key_path : String) (versions : List TlsVersion) :
    Except String Request := do
  let new_certificate ← withContext "Could not load the full certificate"
    (load_full_certificate fs certificate_path certificate_chain_path key_path versions)
  order_request (Request.AddCertificate
    { address := address, certificate := new_certificate, names := [], expired_at := none })

/-- The fingerprint-resolution match of `replace_certificate` (source lines
462-473), factored out by name: exactly one of the old-certificate path and
the fingerprint string must be supplied. -/
def resolve_replace_fingerprint (fs : Filesystem) :
    Option String → Option String → Except String Fingerprint
  | none, none =>
      Except.error "Error: Please provide either one, the old certificate path OR its fingerprint"
  | some _, some _ =>
      Except.error "Error: Please provide either one, the old certificate path OR its fingerprint"
  | some old_certificate_path, none =>
      withContext "Could not retrieve the fingerprint from the given certificate path"
        (get_fingerprint_from_certificate_path fs old_certificate_path)
  | none, some fingerprint =>
      withContext "Error decoding the given fingerprint" (decode_fingerprint fingerprint)

/-- Embeds `replace_certificate`. -/
def replace_certificate (fs : Filesystem) (address : String)
    (new_certificate_path : String) (new_certificate_chain_path : String)
    (new_key_path : String) (old_certificate_path : Option String)
    (old_fingerprint : Option String) (versions : List TlsVersion) :
    Except String Request := do
  let old_fingerprint ← resolve_replace_fingerprint fs old_certificate_path old_fingerprint
  let new_certificate ← withContext "Could not load the full certificate"
    (load_full_certificate fs new_certificate_path new_certificate_chain_path
      new_key_path versions)
  order_request (Request.ReplaceCertificate
    { address := address, new_certificate := new_certificate,
      old_fingerprint := old_fingerprint, new_names := [], new_expired_at := none })

/-- The fingerprint-resolution match of `remove_certificate` (source lines
500-511), factored out by name: exactly one of the certificate path and the
fingerprint string must be supplied. -/
def resolve_remove_fingerprint (fs : Filesystem) :
    Option String → Option String → Except String Fingerprint
  | none, none =>
      Except.error "Error: Please provide either one, the path OR the fingerprint of the certificate"
  | some _, some _ =>
      Except.error "Error: Please provide either one, the path OR the fingerprint of the certificate"
  | some certificate_path, none =>
      withContext "Could not retrieve the finger print from the given certificate path"
        (get_fingerprint_from_certificate_path fs certificate_path)
  | none, some fingerprint =>
      withContext "Error decoding the given fingerprint" (decode_fingerprint fingerprint)

/-- Embeds `remove_certificate`. -/
def remove_certificate (fs : Filesystem) (address : String)
    (certificate_path : Option String) (fingerprint : Option String) :
    Except String Request := do
  let fingerprint ← resolve_remove_fingerprint fs certificate_path fingerprint
  order_request (Request.RemoveCertificate { address := address, fingerprint := fingerprint })

lemma isErr_withContext {α : Type} (msg : String) (x : Except String α) :
    isErr (withContext msg x) = isErr x := by
  cases x <;> rfl

lemma withContext_eq_ok {α : Type} (msg : String) (x : Except String α) (a : α) :
    withContext msg x = Except.ok a ↔ x = Except.ok a := by
  cases x <;> simp [withContext]

lemma except_bind_ok {α β : Type} (a : α) (f : α → Except String β) :
    (Except.ok a >>= f) = f a := rfl

lemma except_bind_error {α β : Type} (e : String) (f : α → Except String β) :
    ((Except.error e : Except String α) >>= f) = Except.error e := rfl

/-- Claim C2: for every one of the four boolean combinations of
(send_proxy, expect_proxy) given to a cluster-add command, the derived
proxy-protocol mode is exactly (true,true) → Relay, (true,false) → Send only,
(false,true) → Expect only, (false,false) → none. -/
theorem cluster_proxy_protocol_table (id : String) (ss hr : Bool)
    (lbp : Option LoadBalancingAlgorithms) :
    cluster_command (ClusterCmd.Add id ss hr true true lbp) =
      Except.ok (Request.AddCluster
        { cluster_id := id, sticky_session := ss, https_redirect := hr,
          proxy_protocol := some ProxyProtocolConfig.RelayHeader,
          load_balancing := lbp, load_metric := none, answer_503 := none }) ∧
    cluster_command (ClusterCmd.Add id ss hr true false lbp) =
      Except.ok (Request.AddCluster
        { cluster_id := id, sticky_session := ss, https_redirect := hr,
          proxy_protocol := some ProxyProtocolConfig.SendHeader,
          load_balancing := lbp, load_metric := none, answer_503 := none }) ∧
    cluster_command (ClusterCmd.Add id ss hr false true lbp) =
      Except.ok (Request.AddCluster
        { cluster_id := id, sticky_session := ss, https_redirect := hr,
          proxy_protocol := some ProxyProtocolConfig.ExpectHeader,
          load_balancing := lbp, load_metric := none, answer_503 := none }) ∧
    cluster_command (ClusterCmd.Add id ss hr false false lbp) =
      Except.ok (Request.AddCluster
        { cluster_id := id, sticky_session := ss, https_redirect := hr,
          proxy_protocol := none,
          load_balancing := lbp, load_metric := none, answer_503 := none }) := by
  exact ⟨rfl, rfl, rfl, rfl⟩

/-- Claim C3: the command `ClusterCmd::Add` with id "c1", sticky_session true,
https_redirect false, send_proxy true, expect_proxy false and load-balancing
policy P produces exactly a `Request::AddCluster` with cluster_id "c1",
proxy_protocol SendHeader, sticky_session true, https_redirect false and
load_balancing P. -/
theorem cluster_add_end_to_end (P : Option LoadBalancingAlgorithms) :
    cluster_command (ClusterCmd.Add "c1" true false true false P) =
      Except.ok (Request.AddCluster
        { cluster_id := "c1", sticky_session := true, https_redirect := false,
          proxy_protocol := some ProxyProtocolConfig.SendHeader,
          load_balancing := P, load_metric := none, answer_503 := none }) := rfl

/-- Claim C8: every `BackendCmd::Add`, whatever its input fields, produces a
`Request::AddBackend` whose load_balancing_parameters is
`some LoadBalancingParams.default`; no caller-supplied weight is ever placed
in the request. -/
theorem backend_add_default_load_balancing (id backend_id address : String)
    (sticky_id : Option String) (backup : Option Bool) :
    backend_command (BackendCmd.Add id backend_id address sticky_id backup) =
      Except.ok (Request.AddBackend
        { cluster_id := id, address := address, backend_id := backend_id,
          load_balancing_parameters := some LoadBalancingParams.default,
          sticky_id := sticky_id, backup := backup }) := rfl

/-- Claim C9: every HTTP(S) frontend request built by `http_frontend_command`
or `https_frontend_command` (Add and Remove) has position `RulePosition.Tree`;
every Remove carries an empty tag mapping, and an Add whose tags are absent
carries an empty tag mapping. -/
theorem frontend_position_tree_and_tags (hostname : String)
    ( path_prefix path_regex path_equals : Option String) (address : String)
    (method : Option String) (cluster_id : Option String)
    (tags : Option (List (String × String))) :
    (∃ f, http_frontend_command (HttpFrontendCmd.Add hostname path_prefix path_regex
        path_equals address method cluster_id tags) =
        Except.ok (Request.AddHttpFrontend f) ∧
      f.position = RulePosition.Tree ∧ (tags = none → f.tags = [])) ∧
    (∃ f, http_frontend_command (HttpFrontendCmd.Remove hostname path_prefix path_regex
        path_equals address method cluster_id) =
        Except.ok (Request.RemoveHttpFrontend f) ∧
      f.position = RulePosition.Tree ∧ f.tags = []) ∧
    (∃ f, https_frontend_command (HttpFrontendCmd.Add hostname path_prefix path_regex
        path_equals address method cluster_id tags) =
        Except.ok (Request.AddHttpsFrontend f) ∧
      f.position = RulePosition.Tree ∧ (tags = none → f.tags = [])) ∧
    (∃ f, https_frontend_command (HttpFrontendCmd.Remove hostname path_prefix path_regex
        path_equals address method cluster_id) =
        Except.ok (Request.RemoveHttpsFrontend f) ∧
      f.position = RulePosition.Tree ∧ f.tags = []) := by
  refine ⟨⟨_, rfl, rfl, ?_⟩, ⟨_, rfl, rfl, rfl⟩, ⟨_, rfl, rfl, ?_⟩, ⟨_, rfl, rfl, rfl⟩⟩ <;>
    rintro rfl <;> rfl

/-- Witness for C9 at a concrete command with absent tags. -/
theorem frontend_position_tree_and_tags_witness :
    ∃ f, http_frontend_command
        (HttpFrontendCmd.Add "h" none none none "1.2.3.4:80" none (some "c") none) =
        Except.ok (Request.AddHttpFrontend f) ∧
      f.position = RulePosition.Tree ∧ f.tags = [] := by
  obtain ⟨⟨f, hf, hpos, htags⟩, -, -, -⟩ :=
    frontend_position_tree_and_tags "h" none none none "1.2.3.4:80" none (some "c") none
  exact ⟨f, hf, hpos, htags rfl⟩

/-- Claim C6: every listener add/remove/activate/deactivate command whose
address string does not parse as a socket address fails, and no request is
constructed or handed to the transport collaborator. -/
theorem listener_address_parse_failure (addr : String)
    (h : parseSocketAddr addr = none) :
    (∀ pty, isErr (remove_listener addr pty) = true ∧
            isErr (activate_listener addr pty) = true ∧
            isErr (deactivate_listener addr pty) = true) ∧
    (∀ pa a4 a5 tv cl ep sn ft bt rt ct,
      isErr (https_listener_command
        (HttpsListenerCmd.Add addr pa a4 a5 tv cl ep sn ft bt rt ct)) = true) ∧
    (∀ pa a4 a5 ep sn ft bt rt ct,
      isErr (http_listener_command
        (HttpListenerCmd.Add addr pa a4 a5 ep sn ft bt rt ct)) = true) ∧
    (∀ pa ep, isErr (tcp_listener_command (TcpListenerCmd.Add addr pa ep)) = true) ∧
    (isErr (https_listener_command (HttpsListenerCmd.Remove addr)) = true ∧
     isErr (https_listener_command (HttpsListenerCmd.Activate addr)) = true ∧
     isErr (https_listener_command (HttpsListenerCmd.Deactivate addr)) = true) ∧
    (isErr (http_listener_command (HttpListenerCmd.Remove addr)) = true ∧
     isErr (http_listener_command (HttpListenerCmd.Activate addr)) = true ∧
     isErr (http_listener_command (HttpListenerCmd.Deactivate addr)) = true) ∧
    (isErr (tcp_listener_command (TcpListenerCmd.Remove addr)) = true ∧
     isErr (tcp_listener_command (TcpListenerCmd.Activate addr)) = true ∧
     isErr (tcp_listener_command (TcpListenerCmd.Deactivate addr)) = true) := by
  refine ⟨fun pty => ⟨?_, ?_, ?_⟩,
    fun pa a4 a5 tv cl ep sn ft bt rt ct => ?_,
    fun pa a4 a5 ep sn ft bt rt ct => ?_,
    fun pa ep => ?_,
    ⟨?_, ?_, ?_⟩, ⟨?_, ?_, ?_⟩, ⟨?_, ?_, ?_⟩⟩ <;>
  simp [remove_listener, activate_listener, deactivate_listener,
    https_listener_command, http_listener_command, tcp_listener_command,
    ListenerBuilder.new_https, ListenerBuilder.new_http, ListenerBuilder.new_tcp,
    ListenerBuilder.with_public_address, ListenerBuilder.with_answer_404_path,
    ListenerBuilder.with_answer_503_path, ListenerBuilder.with_tls_versions,
    ListenerBuilder.with_cipher_list, ListenerBuilder.with_expect_proxy,
    ListenerBuilder.with_sticky_name, ListenerBuilder.with_front_timeout,
    ListenerBuilder.with_back_timeout, ListenerBuilder.with_request_timeout,
    ListenerBuilder.with_connect_timeout, ListenerBuilder.to_tls,
    ListenerBuilder.to_http, ListenerBuilder.to_tcp, ListenerBuilder.finalize,
    h, withContext, isErr, order_request, except_bind_error]

/-- Witness for C6 at the concrete address string "not-an-address". -/
theorem listener_address_parse_failure_witness :
    isErr (remove_listener "not-an-address" ListenerType.HTTP) = true ∧
    isErr (https_listener_command (HttpsListenerCmd.Add "not-an-address"
      none none none [] none false none none none none none)) = true ∧
    isErr (tcp_listener_command (TcpListenerCmd.Deactivate "not-an-address")) = true := by
  have h := listener_address_parse_failure "not-an-address" (by decide)
  exact ⟨(h.1 ListenerType.HTTP).1,
    h.2.1 none none none [] none false none none none none none,
    (h.2.2.2.2.2.2).2.2⟩

/-- Claim C7: when loading a certificate bundle, if any of the three files
cannot be read, `load_full_certificate` fails with a contextual error whose
message names the specific path that could not be read, and no
`CertificateAndKey` is produced. -/
theorem load_full_certificate_names_failing_path (fs : Filesystem)
    (certificate_path certificate_chain_path key_path : String)
    (versions : List TlsVersion) :
    (fs certificate_path = none →
      load_full_certificate fs certificate_path certificate_chain_path key_path versions =
        Except.error (("Could not load certificate file on path " ++ certificate_path) ++
          ": " ++ "unable to read the file")) ∧
    (∀ c, fs certificate_path = some c → fs certificate_chain_path = none →
      load_full_certificate fs certificate_path certificate_chain_path key_path versions =
        Except.error (("could not load certificate chain on path: " ++
          certificate_chain_path) ++ ": " ++ "unable to read the file")) ∧
    (∀ c ch, fs certificate_path = some c → fs certificate_chain_path = some ch →
      fs key_path = none →
      load_full_certificate fs certificate_path certificate_chain_path key_path versions =
        Except.error (("Could not load key file on path " ++ key_path) ++
          ": " ++ "unable to read the file")) := by
  refine ⟨fun h1 => ?_, fun c h1 h2 => ?_, fun c ch h1 h2 h3 => ?_⟩ <;>
    simp_all [load_full_certificate, Config.load_file, withContext, Except.map,
      except_bind_ok, except_bind_error]

/-- Witness for C7: each of the three unreadable-file cases at concrete
paths. -/
theorem load_full_certificate_names_failing_path_witness :
    load_full_certificate (fun _ => none) "a" "b" "c" [] =
      Except.error (("Could not load certificate file on path " ++ "a") ++
        ": " ++ "unable to read the file") ∧
    load_full_certificate (fun p => if p = "a" then some [1] else none) "a" "b" "c" [] =
      Except.error (("could not load certificate chain on path: " ++ "b") ++
        ": " ++ "unable to read the file") ∧
    load_full_certificate (fun p => if p = "c" then none else some [1]) "a" "b" "c" [] =
      Except.error (("Could not load key file on path " ++ "c") ++
        ": " ++ "unable to read the file") := by
  refine ⟨(load_full_certificate_names_failing_path (fun _ => none) "a" "b" "c" []).1 rfl,
    (load_full_certificate_names_failing_path _ "a" "b" "c" []).2.1 [1] (by decide) (by decide),
    (load_full_certificate_names_failing_path _ "a" "b" "c" []).2.2 [1] [1]
      (by decide) (by decide) (by decide)⟩

/-- Claim C1: certificate-identity resolution obeys the mutual-exclusion
policy in both `replace_certificate` and `remove_certificate`: with both
options absent or both present the command fails; with only the path the
resolution succeeds with the fingerprint obtained by hashing that file's
bytes; with only the fingerprint string it succeeds with the hex-decoded
fingerprint. -/
theorem certificate_identity_mutual_exclusion (fs : Filesystem)
    (addr np nchp nkp : String) (vs : List TlsVersion) (p f : String) :
    isErr (replace_certificate fs addr np nchp nkp none none vs) = true ∧
    isErr (replace_certificate fs addr np nchp nkp (some p) (some f) vs) = true ∧
    isErr (remove_certificate fs addr none none) = true ∧
    isErr (remove_certificate fs addr (some p) (some f)) = true ∧
    (∀ bytes, fs p = some bytes →
      resolve_replace_fingerprint fs (some p) none =
        Except.ok (Fingerprint.mk (content_digest bytes)) ∧
      resolve_remove_fingerprint fs (some p) none =
        Except.ok (Fingerprint.mk (content_digest bytes))) ∧
    (∀ bs, hexDecodeList f.data = some bs →
      resolve_replace_fingerprint fs none (some f) =
        Except.ok (Fingerprint.mk bs) ∧
      resolve_remove_fingerprint fs none (some f) =
        Except.ok (Fingerprint.mk bs)) := by
  refine ⟨rfl, rfl, rfl, rfl, fun bytes hb => ?_, fun bs hd => ?_⟩
  · constructor <;>
      simp [resolve_replace_fingerprint, resolve_remove_fingerprint,
        get_fingerprint_from_certificate_path, Config.load_file_bytes, hb,
        calculate_fingerprint, withContext, except_bind_ok, except_bind_error]
  · constructor <;>
      simp [resolve_replace_fingerprint, resolve_remove_fingerprint,
        decode_fingerprint, hex_decode, hd, withContext, except_bind_ok,
        except_bind_error]

/-- Witness for C1 at a concrete file system, path and fingerprint string. -/
theorem certificate_identity_mutual_exclusion_witness :
    isErr (remove_certificate (fun _ => some [1, 2]) "addr" none none) = true ∧
    resolve_replace_fingerprint (fun _ => some [1, 2]) (some "p") none =
      Except.ok (Fingerprint.mk (content_digest [1, 2])) ∧
    resolve_remove_fingerprint (fun _ => some [1, 2]) none (some "0aff") =
      Except.ok (Fingerprint.mk [10, 255]) := by
  have h := certificate_identity_mutual_exclusion (fun _ => some [1, 2])
    "addr" "np" "nchp" "nkp" [] "p" "0aff"
  exact ⟨h.2.2.1, (h.2.2.2.2.1 [1, 2] rfl).1, (h.2.2.2.2.2 [10, 255] (by decide)).2⟩

/-- Claim C4: the replace-certificate and remove-certificate flows behave
identically with respect to path-XOR-fingerprint disambiguation: for every
pair of options and every file-system state, the fingerprint resolution of
one fails exactly when that of the other fails, and when both succeed they
yield the same `Fingerprint`. -/
theorem replace_remove_resolution_agree (fs : Filesystem)
    (p f : Option String) :
    isErr (resolve_replace_fingerprint fs p f) =
      isErr (resolve_remove_fingerprint fs p f) ∧
    (∀ a b, resolve_replace_fingerprint fs p f = Except.ok a →
      resolve_remove_fingerprint fs p f = Except.ok b → a = b) := by
  cases p with
  | none =>
      cases f with
      | none =>
          exact ⟨rfl, fun a b ha _ => by simp [resolve_replace_fingerprint] at ha⟩
      | some v =>
          refine ⟨rfl, fun a b ha hb => ?_⟩
          simp only [resolve_replace_fingerprint, resolve_remove_fingerprint,
            withContext_eq_ok] at ha hb
          rw [ha] at hb
          exact Except.ok.inj hb
  | some v =>
      cases f with
      | some w =>
          exact ⟨rfl, fun a b ha _ => by simp [resolve_replace_fingerprint] at ha⟩
      | none =>
          refine ⟨?_, fun a b ha hb => ?_⟩
          · simp only [resolve_replace_fingerprint, resolve_remove_fingerprint]
            rw [isErr_withContext, isErr_withContext]
          · simp only [resolve_replace_fingerprint, resolve_remove_fingerprint,
              withContext_eq_ok] at ha hb
            rw [ha] at hb
            exact Except.ok.inj hb

/-- Witness for C4 at a concrete file system with a path-only resolution. -/
theorem replace_remove_resolution_agree_witness :
    isErr (resolve_replace_fingerprint (fun _ => some [5]) (some "x") none) =
      isErr (resolve_remove_fingerprint (fun _ => some [5]) (some "x") none) ∧
    Fingerprint.mk (content_digest [5]) = Fingerprint.mk (content_digest [5]) := by
  have h := replace_remove_resolution_agree (fun _ => some [5]) (some "x") none
  exact ⟨h.1, h.2 (Fingerprint.mk (content_digest [5]))
    (Fingerprint.mk (content_digest [5])) rfl rfl⟩

/-- Claim C10: every successful `add_certificate` produces an
`AddCertificate` with empty names and no expiration, and every successful
`replace_certificate` produces a `ReplaceCertificate` with empty new_names
and no new expiration, regardless of the inputs. -/
theorem certificate_requests_empty_names_and_expiry (fs : Filesystem)
    (addr cp chp kp : String) (vs : List TlsVersion)
    (np nchp nkp : String) (ocp ofp : Option String) :
    (∀ r, add_certificate fs addr cp chp kp vs = Except.ok r →
      ∃ ac, r = Request.AddCertificate ac ∧ ac.names = [] ∧ ac.expired_at = none) ∧
    (∀ r, replace_certificate fs addr np nchp nkp ocp ofp vs = Except.ok r →
      ∃ rc, r = Request.ReplaceCertificate rc ∧ rc.new_names = [] ∧
        rc.new_expired_at = none) := by
  constructor
  · intro r hr
    unfold add_certificate at hr
    cases hl : withContext "Could not load the full certificate"
        (load_full_certificate fs cp chp kp vs) with
    | error e => rw [hl, except_bind_error] at hr; exact absurd hr (by simp)
    | ok c =>
        rw [hl, except_bind_ok] at hr
        cases hr
        exact ⟨_, rfl, rfl, rfl⟩
  · intro r hr
    unfold replace_certificate at hr
    cases hres : resolve_replace_fingerprint fs ocp ofp with
    | error e => rw [hres, except_bind_error] at hr; exact absurd hr (by simp)
    | ok fp =>
        rw [hres, except_bind_ok] at hr
        cases hl : withContext "Could not load the full certificate"
            (load_full_certificate fs np nchp nkp vs) with
        | error e => rw [hl, except_bind_error] at hr; exact absurd hr (by simp)
        | ok c =>
            rw [hl, except_bind_ok] at hr
            cases hr
            exact ⟨_, rfl, rfl, rfl⟩

/-- Witness for C10 at a file system where every path is readable. -/
theorem certificate_requests_empty_names_and_expiry_witness :
    (∃ r ac, add_certificate (fun _ => some [1]) "ad" "a" "b" "c" [] = Except.ok r ∧
      r = Request.AddCertificate ac ∧ ac.names = [] ∧ ac.expired_at = none) ∧
    (∃ r rc, replace_certificate (fun _ => some [1]) "ad" "a" "b" "c" (some "p") none [] =
        Except.ok r ∧
      r = Request.ReplaceCertificate rc ∧ rc.new_names = [] ∧
        rc.new_expired_at = none) := by
  have h := certificate_requests_empty_names_and_expiry (fun _ => some [1])
    "ad" "a" "b" "c" [] "a" "b" "c" (some "p") none
  constructor
  · obtain ⟨ac, h1, h2, h3⟩ := h.1 _ rfl
    exact ⟨_, ac, rfl, h1, h2, h3⟩
  · obtain ⟨rc, h1, h2, h3⟩ := h.2 _ rfl
    exact ⟨_, rc, rfl, h1, h2, h3⟩

lemma hexDigitValue_lt_16 {c : Char} {v : Nat} (h : hexDigitValue c = some v) :
    v < 16 := by
  simp only [hexDigitValue] at h
  split_ifs at h with h1 h2 h3
  · injection h with hv; omega
  · injection h with hv; omega
  · injection h with hv; omega

lemma hexDigitChar_eq_toLower {c : Char} {v : Nat} (h : hexDigitValue c = some v) :
    hexDigitChar v = c.toLower := by
  simp only [hexDigitValue] at h
  split_ifs at h with h1 h2 h3
  · injection h with hv
    subst hv
    have hlt : c.toNat - 48 < 10 := by omega
    simp only [hexDigitChar, if_pos hlt, Char.toLower]
    rw [if_neg (by omega)]
    have harg : 48 + (c.toNat - 48) = c.toNat := by omega
    rw [harg, Char.ofNat_toNat]
  · injection h with hv
    subst hv
    have hge : ¬ (c.toNat - 87 < 10) := by omega
    simp only [hexDigitChar, if_neg hge, Char.toLower]
    rw [if_neg (by omega)]
    have harg : 87 + (c.toNat - 87) = c.toNat := by omega
    rw [harg, Char.ofNat_toNat]
  · injection h with hv
    subst hv
    have hge : ¬ (c.toNat - 55 < 10) := by omega
    simp only [hexDigitChar, if_neg hge, Char.toLower]
    rw [if_pos (by omega)]
    congr 1
    omega

lemma hexDecodeList_encode : ∀ (l : List Char), l.length % 2 = 0 →
    (∀ c ∈ l, (hexDigitValue c).isSome) →
    ∃ bs, hexDecodeList l = some bs ∧ hexEncodeList bs = l.map Char.toLower
  | [], _, _ => ⟨[], rfl, rfl⟩
  | [c], h, _ => by simp at h
  | c1 :: c2 :: rest, h, hall => by
      obtain ⟨v1, hv1⟩ := Option.isSome_iff_exists.mp (hall c1 (by simp))
      obtain ⟨v2, hv2⟩ := Option.isSome_iff_exists.mp (hall c2 (by simp))
      obtain ⟨bs, hbs, henc⟩ := hexDecodeList_encode rest
        (by simp only [List.length_cons] at h; omega)
        (fun c hc => hall c (by simp [hc]))
      refine ⟨(16 * v1 + v2) :: bs, ?_, ?_⟩
      · simp [hexDecodeList, hv1, hv2, hbs]
      · have hlt := hexDigitValue_lt_16 hv2
        have l1 : (16 * v1 + v2) / 16 = v1 := by omega
        have l2 : (16 * v1 + v2) % 16 = v2 := by omega
        simp [hexEncodeList, l1, l2, hexDigitChar_eq_toLower hv1,
          hexDigitChar_eq_toLower hv2, henc]

/-- Claim C5: for every valid hexadecimal string H (even length, only hex
digits), `decode_fingerprint H` succeeds, and the lowercase hex re-encoding
of the resulting fingerprint's bytes equals H up to letter case. -/
theorem decode_fingerprint_hex_round_trip (H : String)
    (heven : H.data.length % 2 = 0)
    (hhex : ∀ c ∈ H.data, (hexDigitValue c).isSome) :
    ∃ bs, decode_fingerprint H = Except.ok (Fingerprint.mk bs) ∧
      hexEncodeList bs = H.data.map Char.toLower := by
  obtain ⟨bs, h1, h2⟩ := hexDecodeList_encode H.data heven hhex
  refine ⟨bs, ?_, h2⟩
  simp [decode_fingerprint, hex_decode, h1, withContext, except_bind_ok]

/-- Witness for C5 at the mixed-case hex string "0aFf". -/
theorem decode_fingerprint_hex_round_trip_witness :
    ∃ bs, decode_fingerprint "0aFf" = Except.ok (Fingerprint.mk bs) ∧
      hexEncodeList bs = "0aFf".data.map Char.toLower := by
  exact decode_fingerprint_hex_round_trip "0aFf" (by decide) (by decide)
